import Mathlib

/-!
Shallow embedding of the `ab-utils` request-context module
(`src/utils/reqService.js` and `src/utils/reqServiceCote.js`).

JavaScript values carried through the context (job payloads, query results,
connection tables) are modelled by a `Json` inductive; JS `undefined`/absent
fields by `Option`; JS truthiness by `truthy`.  Methods become pure functions
on an `ABRequestService` structure; side channels (console logging, the
developer notifier, callback invocations) become explicit components of the
functions' results.
-/

namespace ABUtils

/-- JSON-like runtime values (job payloads, rows, packets). -/
inductive Json where
  | null
  | bool (b : Bool)
  | num (n : Int)
  | str (s : String)
  | arr (xs : List Json)
  | obj (fields : List (String × Json))

/-- JavaScript truthiness of a `Json` value (`undefined` is handled by
`Option` at use sites). -/
def truthy : Json → Bool
  | .null => false
  | .bool b => b
  | .num n => n != 0
  | .str s => s != ""
  | .arr _ => true
  | .obj _ => true

/-- JS `a || b` on possibly-absent `Json` values: keep `a` when present and
truthy, otherwise fall through to `b`. -/
def jsOr (a b : Option Json) : Option Json :=
  match a with
  | some x => if truthy x then some x else b
  | none => b

/-- JS `s || d` on a possibly-absent string (the only falsy string is ""). -/
def strOr (a : Option String) (d : String) : String :=
  match a with
  | some s => if s = "" then d else s
  | none => d

/-- One named connection definition from the controller's connection table
(`controller.connections.appbuilder` / `.site`); its payload is opaque to the
context apart from the `database` field used by `tenantDB`. -/
structure ConnectionDef where
  database : Option String
deriving DecidableEq, Repr

/-- The controller's connection table.  `configDB` only ever reads the
`appbuilder` and `site` keys; an absent key is `none` (connection-definition
objects are truthy in JS, so presence and truthiness coincide). -/
structure Connections where
  appbuilder : Option ConnectionDef
  site : Option ConnectionDef
deriving DecidableEq, Repr

/-- The shared, read-only service controller handed to the constructor. -/
structure Controller where
  key : Option String
  connections : Connections

/-- The raw request object received from the Cote service: the fields the
`ABRequestService` constructor reads.  Absent/`undefined` fields are `none`. -/
structure Req where
  jobID : Option String
  tenantID : Option String
  user : Option Json
  data : Option Json
  param : Option Json

/-- The per-job request context built by the `ABRequestService` constructor.
`_DBConn` and `_Model` model the injectable storage-driver and model-accessor
bindings; they are reference identities (a `Nat` tag), so field equality in
the model is reference equality in the source. -/
structure ABRequestService where
  jobID : String
  _tenantID : String
  _user : Option Json
  serviceKey : String
  data : Option Json
  controller : Controller
  _DBConn : Nat
  _Model : Nat
  debug : Bool

/-- Reference identity of the module-level `DBConn` binding required at the
top of `reqService.js` (the constructor's default for `_DBConn`). -/
def moduleDBConn : Nat := 0

/-- Reference identity of the module-level `Model` binding required at the
top of `reqService.js` (the constructor's default for `_Model`). -/
def moduleModel : Nat := 0

/-- The `ABRequestService` constructor (reqService.js lines 18-50):
`jobID = req.jobID || "??"`, `_tenantID = req.tenantID || "??"`,
`_user = req.user || null`, `serviceKey = controller.key || jobID`,
`data = req.data || req.param`, default bindings, `debug = false`. -/
def mkRequest (req : Req) (controller : Controller) : ABRequestService :=
  let jobID := strOr req.jobID "??"
  { jobID := jobID
  , _tenantID := strOr req.tenantID "??"
  , _user :=
      match req.user with
      | some u => if truthy u then some u else none
      | none => none
  , serviceKey := strOr controller.key jobID
  , data := jsOr req.data req.param
  , controller := controller
  , _DBConn := moduleDBConn
  , _Model := moduleModel
  , debug := false }

/-- `socketKey(key)` (reqService.js lines 517-519): the template literal
`${this._tenantID}-${key}`. -/
def socketKey (ctx : ABRequestService) (key : String) : String :=
  ctx._tenantID ++ "-" ++ key

/-- `configDB()` (reqService.js lines 256-273).  The pair's second component
is the list of log lines emitted (`this.log(...)`), so "logs an error and
returns null" is visible in the result. -/
def configDB (ctx : ABRequestService) : Option ConnectionDef × List String :=
  let defs := ctx.controller.connections
  if ctx._tenantID ≠ "??" then
    match defs.appbuilder with
    | some d => (some d, [])
    | none => (none, ["Error: No appbuilder connection defined:"])
  else
    match defs.site with
    | some d => (some d, [])
    | none => (none, ["Error: No site connection defined:"])

/-- Field lookup `d[key]` on a `Json` object (`undefined` when absent or when
`d` is not an object). -/
def jsonLookup (d : Json) (key : String) : Option Json :=
  match d with
  | .obj fields => (fields.find? (fun p => p.1 = key)).map Prod.snd
  | _ => none

/-- `param(key)` (reqService.js lines 359-361): `return this.data[key]`.
When `this.data` is `undefined` (or `null`) the member access throws a
TypeError, modelled as `Except.error "TypeError"`. -/
def param (ctx : ABRequestService) (key : String) : Except String (Option Json) :=
  match ctx.data with
  | none => .error "TypeError"
  | some .null => .error "TypeError"
  | some d => .ok (jsonLookup d key)

/-- `params(ignoreList)` (reqService.js lines 367-375):
`Object.keys(this.data)` throws a TypeError when `this.data` is
`undefined`/`null`; otherwise the result keeps the object's fields whose key
is not in `ignoreList`. -/
def params (ctx : ABRequestService) (ignoreList : List String) :
    Except String (List (String × Json)) :=
  match ctx.data with
  | none => .error "TypeError"
  | some .null => .error "TypeError"
  | some (.obj fields) => .ok (fields.filter (fun p => !ignoreList.contains p.1))
  | some _ => .ok []

/-- The body of `queryWhereCondition`'s forEach loop (reqService.js lines
475-488): push the value, then append the clause for this key — popping the
value again when it is an empty array. -/
def qwcStep (acc : List Json × List String) (p : String × Json) :
    List Json × List String :=
  let pushed := acc.1 ++ [p.2]
  match p.2 with
  | Json.arr xs =>
    if xs.length > 0 then
      (pushed, acc.2 ++ [p.1 ++ " IN ( ? )"])
    else
      (acc.1, acc.2 ++ [" 1 = 0 "])
  | _ => (pushed, acc.2 ++ [p.1 ++ " = ?"])

/-- `queryWhereCondition(cond)` (reqService.js lines 470-493): fold the
forEach body over the condition map's entries in iteration order, then join
the clauses with " AND ".  `none` models a falsy `cond`; the map is a list of
key/value pairs in iteration order. -/
def queryWhereCondition (cond : Option (List (String × Json))) :
    String × List Json :=
  match cond with
  | none => ("", [])
  | some fields =>
    let folded := fields.foldl qwcStep ([], [])
    (String.intercalate " AND " folded.2, folded.1)

/-- Whether the character list `s` starts with the character list `pat`. -/
def startsWithList : List Char → List Char → Bool
  | _, [] => true
  | [], _ :: _ => false
  | a :: as, b :: bs => a = b && startsWithList as bs

/-- Whether `pat` occurs as a contiguous run inside `s`. -/
def hasSubList (pat : List Char) : List Char → Bool
  | [] => pat.isEmpty
  | c :: rest => startsWithList (c :: rest) pat || hasSubList pat rest

/-- JS `s.indexOf(pat) > -1`: `pat` occurs inside `s`. -/
def containsSub (s pat : String) : Bool :=
  hasSubList pat.data s.data

/-- A storage-driver error as the `query` callback sees it: `message` is what
`error.toString()` renders; `sql` is the `error.sql` annotation (absent until
`query` assigns it on the non-transient path). -/
structure SqlError where
  message : String
  sql : Option String

/-- One `(error, results, fields)` tuple as delivered by the mysql driver's
query callback. -/
structure QueryOutcome where
  error : Option SqlError
  results : Json
  fields : Json

/-- The transient-failure signature recognised by `query`. -/
def transientSig : String := "PROTOCOL_ENQUEUE_AFTER_FATAL_ERROR"

/-- The check `error.toString().indexOf("PROTOCOL_ENQUEUE_AFTER_FATAL_ERROR") > -1`. -/
def isTransient (e : SqlError) : Bool :=
  containsSub e.message transientSig

/-- Whether a driver outcome is a transient failure (an error carrying the
recognised signature). -/
def transientOutcome (r : QueryOutcome) : Bool :=
  match r.error with
  | some e => isTransient e
  | none => false

/-- `query(query, values, cb, numRetries, prev)` (reqService.js lines
393-432).  The driver's behaviour on each resubmission is the environment:
`attempts i` is the outcome the driver delivers to the i-th invocation
(`i` = the `numRetries` value of that invocation).  The result is the list of
invocation indices actually executed, paired with the tuple passed to `cb`
(`none` models the TypeError of reading `prev.error` off a null `prev`). -/
def query (attempts : Nat → QueryOutcome) (sql : String)
    (numRetries : Nat) (prev : Option QueryOutcome) :
    List Nat × Option QueryOutcome :=
  if _h : numRetries > 3 then
    ([], prev)
  else
    let r := attempts numRetries
    match r.error with
    | some e =>
      if isTransient e then
        let next := query attempts sql (numRetries + 1) (some r)
        (numRetries :: next.1, next.2)
      else
        ([numRetries], some { r with error := some { e with sql := some sql } })
    | none => ([numRetries], some r)
termination_by 4 - numRetries
decreasing_by omega

/-- The `param` component of the service-call envelope. -/
structure EnvelopeParam where
  jobID : String
  tenantID : String
  user : Option Json
  data : Json

/-- The envelope sent over the cote transport: exactly a `type` and a
`param`, nothing else (reqServiceCote.js lines 18-29). -/
structure Envelope where
  type : String
  param : EnvelopeParam

/-- `toParam(key, data)` (reqServiceCote.js lines 18-29): `data = data || {}`
then the `{type, param: {jobID, tenantID, user, data}}` envelope. -/
def toParam (ctx : ABRequestService) (key : String) (data : Json) : Envelope :=
  let d := if truthy data then data else Json.obj []
  { type := key
  , param :=
    { jobID := ctx.jobID
    , tenantID := ctx._tenantID
    , user := ctx._user
    , data := d } }

/-- Modelled from the spec: the ServiceRequest helper required by
reqService.js (`serviceRequest.js`, whose source is not under src/) sends the
envelope built by `toParam` over the RPC transport addressed by `key` and
hands the reply `(error, result)` to the callback.  `transport` is the
environment's transport behaviour. -/
def serviceRequestRun (transport : Envelope → Option String × Json)
    (ctx : ABRequestService) (key : String) (data : Json) :
    Option String × Json :=
  transport (toParam ctx key data)

/-- One developer alert raised through `notify.developer(err, {tenantID, jobID})`. -/
structure DevAlert where
  err : String
  tenantID : String
  jobID : String
deriving DecidableEq, Repr

/-- What one `broadcast` call did: the developer alerts raised, the
`(err, results)` pair its internal handler received from the transport, and
the invocations of the caller-supplied callback. -/
structure BroadcastRun where
  alerts : List DevAlert
  outcome : Option String × Json
  cbCalls : List (Option String × Json)

/-- One broadcast packet `{room, event, data}`. -/
structure BroadcastPacket where
  room : String
  event : String
  data : Json

/-- A packet as the JSON payload handed to `serviceRequest`. -/
def packetJson (p : BroadcastPacket) : Json :=
  Json.obj [("room", .str p.room), ("event", .str p.event), ("data", p.data)]

/-- `broadcast(packets, cb)` (reqService.js lines 231-244): send the packets
through `serviceRequest("api.broadcast", ...)`; on error, log and raise a
developer alert carrying `_tenantID` and `jobID`; then `if (cb) cb(err,
results)`. -/
def broadcast (transport : Envelope → Option String × Json)
    (ctx : ABRequestService) (packets : List BroadcastPacket)
    (cbProvided : Bool) : BroadcastRun :=
  let o := serviceRequestRun transport ctx "api.broadcast"
    (Json.arr (packets.map packetJson))
  { alerts :=
      match o.1 with
      | some e => [{ err := e, tenantID := ctx._tenantID, jobID := ctx.jobID }]
      | none => []
  , outcome := o
  , cbCalls := if cbProvided then [o] else [] }

/-- What one `broadcast.dcCreate`/`dcUpdate`/`dcDelete` call did: the packets
broadcast, the performance-marker key used, the legacy callback's invocations
(each receiving the broadcast error), the settled promise, and the developer
alerts raised underneath. -/
structure DCRun where
  packets : List BroadcastPacket
  perfKey : String
  cbCalls : List (Option String)
  promise : Except String Unit
  alerts : List DevAlert

/-- `broadcast.dcCreate(id, newItem, key, cb)` (reqService.js lines 79-107):
one packet to room `socketKey(id)` with event "ab.datacollection.create" and
data `{objectId: id, data: newItem}`; the internal handler invokes the legacy
`cb(err)` when provided, then rejects with the error or resolves. -/
def dcCreate (transport : Envelope → Option String × Json)
    (ctx : ABRequestService) (id : String) (newItem : Json)
    (key : Option String) (cbProvided : Bool) : DCRun :=
  let k := strOr key ("broadcast.dc.create." ++ id)
  let pkts : List BroadcastPacket :=
    [{ room := socketKey ctx id
     , event := "ab.datacollection.create"
     , data := Json.obj [("objectId", .str id), ("data", newItem)] }]
  let b := broadcast transport ctx pkts true
  let err := b.outcome.1
  { packets := pkts
  , perfKey := k
  , cbCalls := if cbProvided then [err] else []
  , promise := match err with | some e => .error e | none => .ok ()
  , alerts := b.alerts }

/-- `broadcast.dcDelete(id, itemID, key, cb)` (reqService.js lines 127-155):
one packet to room `socketKey(id)` with event "ab.datacollection.delete" and
data `{objectId: id, data: itemID}`. -/
def dcDelete (transport : Envelope → Option String × Json)
    (ctx : ABRequestService) (id : String) (itemID : String)
    (key : Option String) (cbProvided : Bool) : DCRun :=
  let k := strOr key ("broadcast.dc.delete." ++ id)
  let pkts : List BroadcastPacket :=
    [{ room := socketKey ctx id
     , event := "ab.datacollection.delete"
     , data := Json.obj [("objectId", .str id), ("data", .str itemID)] }]
  let b := broadcast transport ctx pkts true
  let err := b.outcome.1
  { packets := pkts
  , perfKey := k
  , cbCalls := if cbProvided then [err] else []
  , promise := match err with | some e => .error e | none => .ok ()
  , alerts := b.alerts }

/-- `broadcast.dcUpdate(id, updatedItem, key, cb)` (reqService.js lines
176-205): one packet to room `socketKey(id)` with event
"ab.datacollection.update" and data `{objectId: id, data: updatedItem}`. -/
def dcUpdate (transport : Envelope → Option String × Json)
    (ctx : ABRequestService) (id : String) (updatedItem : Json)
    (key : Option String) (cbProvided : Bool) : DCRun :=
  let k := strOr key ("broadcast.dc.update." ++ id)
  let pkts : List BroadcastPacket :=
    [{ room := socketKey ctx id
     , event := "ab.datacollection.update"
     , data := Json.obj [("objectId", .str id), ("data", updatedItem)] }]
  let b := broadcast transport ctx pkts true
  let err := b.outcome.1
  { packets := pkts
  , perfKey := k
  , cbCalls := if cbProvided then [err] else []
  , promise := match err with | some e => .error e | none => .ok ()
  , alerts := b.alerts }

/-- `toABFactoryReq()` (reqService.js lines 553-564): a fresh context built
from `{jobID: ABFactory(tenantID), tenantID}` and the same controller, with
the `_DBConn` and `_Model` bindings overwritten by the original's. -/
def toABFactoryReq (ctx : ABRequestService) : ABRequestService :=
  let r := mkRequest
    { jobID := some ("ABFactory(" ++ ctx._tenantID ++ ")")
    , tenantID := some ctx._tenantID
    , user := none
    , data := none
    , param := none }
    ctx.controller
  { r with _DBConn := ctx._DBConn, _Model := ctx._Model }

/-!
Spec-side (per-field) reading of `queryWhereCondition`, used to compare the
fold in the source against the per-field clause/value description of the
spec: `specClause` is the clause the spec assigns to one field, `specValues`
the values it says that field contributes.
-/

/-- The clause the spec assigns to one `field: value` entry. -/
def specClause (p : String × Json) : String :=
  match p.2 with
  | .arr xs => if xs.length > 0 then p.1 ++ " IN ( ? )" else " 1 = 0 "
  | _ => p.1 ++ " = ?"

/-- The values the spec says one `field: value` entry contributes. -/
def specValues (p : String × Json) : List Json :=
  match p.2 with
  | .arr xs => if xs.length > 0 then [p.2] else []
  | _ => [p.2]

/-- Unrolling the forEach fold: starting from any accumulator, the fold
appends exactly the per-field values and clauses, in iteration order. -/
theorem foldl_qwcStep (fields : List (String × Json)) (vs : List Json)
    (ps : List String) :
    fields.foldl qwcStep (vs, ps) =
      (vs ++ fields.flatMap specValues, ps ++ fields.map specClause) := by
  induction fields generalizing vs ps with
  | nil => simp
  | cons p rest ih =>
    rcases p with ⟨k, v⟩
    cases v with
    | arr xs =>
      cases xs with
      | nil => simp [qwcStep, specClause, specValues, ih]
      | cons x xs => simp [qwcStep, specClause, specValues, ih]
    | null => simp [qwcStep, specClause, specValues, ih]
    | bool b => simp [qwcStep, specClause, specValues, ih]
    | num n => simp [qwcStep, specClause, specValues, ih]
    | str s => simp [qwcStep, specClause, specValues, ih]
    | obj fs => simp [qwcStep, specClause, specValues, ih]

/-- The source fold equals the spec's per-field description. -/
theorem queryWhereCondition_eq_spec (fields : List (String × Json)) :
    queryWhereCondition (some fields) =
      (String.intercalate " AND " (fields.map specClause),
       fields.flatMap specValues) := by
  simp [queryWhereCondition, foldl_qwcStep]

/-- A scalar (non-array) `Json` value. -/
def isScalar : Json → Bool
  | .arr _ => false
  | _ => true

/-- The placeholder character `?`. -/
def qmChar : Char := Char.ofNat 63

/-- The number of `?` placeholders in a clause string. -/
def countQMarks (s : String) : Nat :=
  s.data.count qmChar

/-!
Concrete fixtures used by witnesses and counterexamples.
-/

/-- A connection table with both well-known keys present. -/
def sampleConnections : Connections :=
  { appbuilder := some { database := some "appbuilder-admin" }
  , site := some { database := some "site" } }

/-- A controller fixture. -/
def sampleController : Controller :=
  { key := some "definition_manager", connections := sampleConnections }

/-- A raw request fixture with a tenant and no payload. -/
def sampleReq : Req :=
  { jobID := some "job1", tenantID := some "tenant1"
  , user := none, data := none, param := none }

/-- A request context fixture for tenant "tenant1". -/
def sampleCtx : ABRequestService :=
  mkRequest sampleReq sampleController

/-- A request context fixture for tenant "tenant2". -/
def sampleCtx2 : ABRequestService :=
  mkRequest { sampleReq with tenantID := some "tenant2" } sampleController

/-- Claim C9: `socketKey(k)` is the template string `tenantID-k` built from
the context's raw tenant id, so two contexts with different tenant ids never
produce the same room name for the same `k`. -/
theorem socketKey_tenant_namespaced (ctx ctx1 ctx2 : ABRequestService)
    (k : String) (h : ctx1._tenantID ≠ ctx2._tenantID) :
    socketKey ctx k = ctx._tenantID ++ "-" ++ k ∧
    socketKey ctx1 k ≠ socketKey ctx2 k := by
  refine ⟨rfl, ?_⟩
  intro heq
  apply h
  have hd := congrArg String.data heq
  simp only [socketKey, String.data_append] at hd
  exact String.ext (List.append_cancel_right (List.append_cancel_right hd))

/-- Claim C9 witness: the two fixture tenants give distinct rooms for the
same key, and the room is the tenant-prefixed string. -/
theorem socketKey_tenant_namespaced_witness :
    socketKey sampleCtx "room7" = sampleCtx._tenantID ++ "-" ++ "room7" ∧
    socketKey sampleCtx "room7" ≠ socketKey sampleCtx2 "room7" :=
  socketKey_tenant_namespaced sampleCtx sampleCtx sampleCtx2 "room7" (by decide)

/-- Claim C4: `configDB` returns the "appbuilder" connection definition when
the raw tenant id is not the sentinel "??", the "site" one when it is (and an
absent `tenantID` makes the constructor store the sentinel), and when the
required key is missing from the table it logs an error and returns none. -/
theorem configDB_tenant_routing (ctx : ABRequestService) :
    (∀ d, ctx._tenantID ≠ "??" →
      ctx.controller.connections.appbuilder = some d →
      configDB ctx = (some d, [])) ∧
    (ctx._tenantID ≠ "??" → ctx.controller.connections.appbuilder = none →
      configDB ctx = (none, ["Error: No appbuilder connection defined:"])) ∧
    (∀ d, ctx._tenantID = "??" → ctx.controller.connections.site = some d →
      configDB ctx = (some d, [])) ∧
    (ctx._tenantID = "??" → ctx.controller.connections.site = none →
      configDB ctx = (none, ["Error: No site connection defined:"])) ∧
    (∀ req ctrl, req.tenantID = none → (mkRequest req ctrl)._tenantID = "??") := by
  refine ⟨?_, ?_, ?_, ?_, ?_⟩
  · intro d ht hd
    simp [configDB, ht, hd]
  · intro ht hd
    simp [configDB, ht, hd]
  · intro d ht hd
    simp [configDB, ht, hd]
  · intro ht hd
    simp [configDB, ht, hd]
  · intro req ctrl ht
    simp [mkRequest, strOr, ht]

/-- Claim C3 counterexample: on `{a: []}` the emitted predicate is the
space-padded string " 1 = 0 " (the forEach pushes a template with surrounding
blanks), not the exact string "1 = 0" the claim states. -/
theorem queryWhereCondition_empty_array_counterexample :
    queryWhereCondition (some [("a", Json.arr [])]) = (" 1 = 0 ", []) ∧
    (queryWhereCondition (some [("a", Json.arr [])])).1 ≠ "1 = 0" := by
  exact ⟨rfl, by decide⟩

/-- Claim C3 (amended): a field whose value is an empty array contributes the
clause " 1 = 0 " (padded by one space on each side) and appends no element to
the values sequence; in particular `{a: []}` yields predicate " 1 = 0 " and
values `[]`. -/
theorem queryWhereCondition_empty_array (pre post : List (String × Json))
    (k : String) :
    (queryWhereCondition (some (pre ++ (k, Json.arr []) :: post))).1 =
      String.intercalate " AND "
        (pre.map specClause ++ " 1 = 0 " :: post.map specClause) ∧
    (queryWhereCondition (some (pre ++ (k, Json.arr []) :: post))).2 =
      pre.flatMap specValues ++ post.flatMap specValues ∧
    queryWhereCondition (some [("a", Json.arr [])]) = (" 1 = 0 ", []) := by
  refine ⟨?_, ?_, rfl⟩
  · simp [queryWhereCondition_eq_spec, specClause]
  · simp [queryWhereCondition_eq_spec, specValues]

/-- Claim C8: `queryWhereCondition` emits `field = ?` with the value appended
for scalar fields and `field IN ( ? )` with the whole array appended as one
element for non-empty-array fields; clauses are joined with " AND " in
iteration order, and each field's clause carries exactly as many placeholders
as the values it contributes (so the values sequence aligns positionally). -/
theorem queryWhereCondition_compose (fields : List (String × Json)) :
    queryWhereCondition (some fields) =
      (String.intercalate " AND " (fields.map specClause),
       fields.flatMap specValues) ∧
    (∀ k v, isScalar v = true →
      specClause (k, v) = k ++ " = ?" ∧ specValues (k, v) = [v]) ∧
    (∀ k (x : Json) (xs : List Json),
      specClause (k, Json.arr (x :: xs)) = k ++ " IN ( ? )" ∧
      specValues (k, Json.arr (x :: xs)) = [Json.arr (x :: xs)]) ∧
    (∀ p : String × Json, p.1.data.count qmChar = 0 →
      countQMarks (specClause p) = (specValues p).length) := by
  refine ⟨queryWhereCondition_eq_spec fields, ?_, ?_, ?_⟩
  · intro k v hv
    cases v <;> simp_all [specClause, specValues, isScalar]
  · intro k x xs
    simp [specClause, specValues]
  · intro p hp
    rcases p with ⟨k, v⟩
    cases v with
    | arr xs =>
      cases xs with
      | nil =>
        simp [specClause, specValues, countQMarks]; decide
      | cons x xs =>
        simp [specClause, specValues, countQMarks, String.data_append, hp]
        decide
    | null =>
      simp [specClause, specValues, countQMarks, String.data_append, hp]
      decide
    | bool b =>
      simp [specClause, specValues, countQMarks, String.data_append, hp]
      decide
    | num n =>
      simp [specClause, specValues, countQMarks, String.data_append, hp]
      decide
    | str s =>
      simp [specClause, specValues, countQMarks, String.data_append, hp]
      decide
    | obj fs =>
      simp [specClause, specValues, countQMarks, String.data_append, hp]
      decide

/-- Claim C5: each of `dcCreate`/`dcUpdate`/`dcDelete` broadcasts exactly one
packet whose room is `socketKey(entityID)`, whose event is the fixed
per-operation name, and whose data carries the entity id and the item
payload; and the returned promise and the legacy callback agree on the
outcome (the promise rejects with exactly the error the callback received,
and resolves exactly when the callback received none). -/
theorem dc_broadcast_packets (transport : Envelope → Option String × Json)
    (ctx : ABRequestService) (id : String) (item : Json) (itemID : String)
    (key : Option String) :
    (dcCreate transport ctx id item key true).packets =
      [{ room := socketKey ctx id
       , event := "ab.datacollection.create"
       , data := Json.obj [("objectId", Json.str id), ("data", item)] }] ∧
    (dcUpdate transport ctx id item key true).packets =
      [{ room := socketKey ctx id
       , event := "ab.datacollection.update"
       , data := Json.obj [("objectId", Json.str id), ("data", item)] }] ∧
    (dcDelete transport ctx id itemID key true).packets =
      [{ room := socketKey ctx id
       , event := "ab.datacollection.delete"
       , data := Json.obj [("objectId", Json.str id), ("data", Json.str itemID)] }] ∧
    (∀ e, (dcCreate transport ctx id item key true).promise = Except.error e ↔
      (dcCreate transport ctx id item key true).cbCalls = [some e]) ∧
    ((dcCreate transport ctx id item key true).promise = Except.ok () ↔
      (dcCreate transport ctx id item key true).cbCalls = [none]) ∧
    (∀ e, (dcUpdate transport ctx id item key true).promise = Except.error e ↔
      (dcUpdate transport ctx id item key true).cbCalls = [some e]) ∧
    ((dcUpdate transport ctx id item key true).promise = Except.ok () ↔
      (dcUpdate transport ctx id item key true).cbCalls = [none]) ∧
    (∀ e, (dcDelete transport ctx id itemID key true).promise = Except.error e ↔
      (dcDelete transport ctx id itemID key true).cbCalls = [some e]) ∧
    ((dcDelete transport ctx id itemID key true).promise = Except.ok () ↔
      (dcDelete transport ctx id itemID key true).cbCalls = [none]) := by
  refine ⟨rfl, rfl, rfl, ?_, ?_, ?_, ?_, ?_, ?_⟩ <;>
    first
    | (intro e
       simp only [dcCreate, dcUpdate, dcDelete, broadcast, serviceRequestRun]
       cases (transport _).1 <;> simp)
    | (simp only [dcCreate, dcUpdate, dcDelete, broadcast, serviceRequestRun]
       cases (transport _).1 <;> simp)

/-- Claim C6: `toABFactoryReq` builds a context that keeps the original's
tenant id, derives its jobID deterministically from the tenant id, copies the
`_DBConn`/`_Model` bindings by reference, shares the controller, and carries
no per-job data and no user. -/
theorem toABFactoryReq_spec (ctx : ABRequestService)
    (h : ctx._tenantID ≠ "") :
    (toABFactoryReq ctx)._tenantID = ctx._tenantID ∧
    (toABFactoryReq ctx).jobID = "ABFactory(" ++ ctx._tenantID ++ ")" ∧
    (toABFactoryReq ctx)._DBConn = ctx._DBConn ∧
    (toABFactoryReq ctx)._Model = ctx._Model ∧
    (toABFactoryReq ctx).data = none ∧
    (toABFactoryReq ctx)._user = none ∧
    (toABFactoryReq ctx).controller = ctx.controller := by
  have hjob : ("ABFactory(" ++ ctx._tenantID ++ ")") ≠ "" := by
    intro he
    have hl := congrArg String.length he
    simp [String.length_append] at hl
    exact absurd hl.1.1 (by decide)
  refine ⟨?_, ?_, rfl, rfl, rfl, rfl, rfl⟩
  · simp [toABFactoryReq, mkRequest, strOr, h]
  · simp [toABFactoryReq, mkRequest, strOr, hjob]

/-- Claim C6 witness: the fixture context's factory derivation keeps the
tenant and bindings and drops data and user. -/
theorem toABFactoryReq_spec_witness :
    (toABFactoryReq sampleCtx)._tenantID = sampleCtx._tenantID ∧
    (toABFactoryReq sampleCtx).jobID =
      "ABFactory(" ++ sampleCtx._tenantID ++ ")" ∧
    (toABFactoryReq sampleCtx)._DBConn = sampleCtx._DBConn ∧
    (toABFactoryReq sampleCtx)._Model = sampleCtx._Model ∧
    (toABFactoryReq sampleCtx).data = none ∧
    (toABFactoryReq sampleCtx)._user = none ∧
    (toABFactoryReq sampleCtx).controller = sampleCtx.controller :=
  toABFactoryReq_spec sampleCtx (by decide)

/-- Claim C7: when the transport reports an error, `broadcast` raises exactly
one developer alert carrying the context's tenantID and jobID and still
invokes the caller's callback with the `(error, results)` pair; when the
transport succeeds no alert is raised and the callback still fires. -/
theorem broadcast_alerts_and_callback (transport : Envelope → Option String × Json)
    (ctx : ABRequestService) (packets : List BroadcastPacket) :
    (∀ e, (broadcast transport ctx packets true).outcome.1 = some e →
      (broadcast transport ctx packets true).alerts =
        [{ err := e, tenantID := ctx._tenantID, jobID := ctx.jobID }] ∧
      (broadcast transport ctx packets true).cbCalls =
        [(broadcast transport ctx packets true).outcome]) ∧
    ((broadcast transport ctx packets true).outcome.1 = none →
      (broadcast transport ctx packets true).alerts = [] ∧
      (broadcast transport ctx packets true).cbCalls =
        [(broadcast transport ctx packets true).outcome]) := by
  constructor
  · intro e he
    simp only [broadcast, serviceRequestRun] at he ⊢
    simp [he]
  · intro he
    simp only [broadcast, serviceRequestRun] at he ⊢
    simp [he]

/-- Claim C10: a context built from a request that provides neither `data`
nor `param` — in particular any context returned by `toABFactoryReq` — has
`data` undefined, so `param(key)` and `params()` throw a TypeError instead of
returning undefined or an empty map. -/
theorem missing_data_param_throws (req : Req) (ctrl : Controller)
    (hd : req.data = none) (hp : req.param = none) :
    (mkRequest req ctrl).data = none ∧
    (∀ k, param (mkRequest req ctrl) k = Except.error "TypeError") ∧
    (∀ ig, params (mkRequest req ctrl) ig = Except.error "TypeError") ∧
    (∀ ctx : ABRequestService,
      (toABFactoryReq ctx).data = none ∧
      (∀ k, param (toABFactoryReq ctx) k = Except.error "TypeError") ∧
      (∀ ig, params (toABFactoryReq ctx) ig = Except.error "TypeError")) := by
  have hdata : (mkRequest req ctrl).data = none := by
    simp [mkRequest, jsOr, hd, hp]
  refine ⟨hdata, ?_, ?_, ?_⟩
  · intro k
    simp [param, hdata]
  · intro ig
    simp [params, hdata]
  · intro ctx
    have hfac : (toABFactoryReq ctx).data = none := by
      simp [toABFactoryReq, mkRequest, jsOr]
    exact ⟨hfac, fun k => by simp [param, hfac], fun ig => by simp [params, hfac]⟩

/-- Claim C10 witness: the fixture request has no data and no param, and the
resulting context's `param`/`params` throw. -/
theorem missing_data_param_throws_witness :
    (mkRequest sampleReq sampleController).data = none ∧
    (∀ k, param (mkRequest sampleReq sampleController) k =
      Except.error "TypeError") ∧
    (∀ ig, params (mkRequest sampleReq sampleController) ig =
      Except.error "TypeError") ∧
    (∀ ctx : ABRequestService,
      (toABFactoryReq ctx).data = none ∧
      (∀ k, param (toABFactoryReq ctx) k = Except.error "TypeError") ∧
      (∀ ig, params (toABFactoryReq ctx) ig = Except.error "TypeError")) :=
  missing_data_param_throws sampleReq sampleController rfl rfl

/-- Unrolling `query` once past the retry budget: with `numRetries > 3` the
stashed previous outcome is delivered and no driver call is made. -/
theorem query_stop (attempts : Nat → QueryOutcome) (sql : String) (n : Nat)
    (prev : Option QueryOutcome) (hn : n > 3) :
    query attempts sql n prev = ([], prev) := by
  unfold query
  rw [dif_pos hn]

/-- Unrolling `query` once on a transient failure: within the retry budget a
transiently-failing attempt re-invokes `query` with the counter incremented
and that attempt's outcome stashed. -/
theorem query_transient_step (attempts : Nat → QueryOutcome) (sql : String)
    (n : Nat) (prev : Option QueryOutcome) (hn : ¬ n > 3)
    (ht : transientOutcome (attempts n) = true) :
    query attempts sql n prev =
      (n :: (query attempts sql (n + 1) (some (attempts n))).1,
       (query attempts sql (n + 1) (some (attempts n))).2) := by
  obtain ⟨e, he, hte⟩ :
      ∃ e, (attempts n).error = some e ∧ isTransient e = true := by
    revert ht
    unfold transientOutcome
    cases he : (attempts n).error with
    | none => simp
    | some e => exact fun ht => ⟨e, rfl, ht⟩
  conv_lhs => rw [query.eq_def]
  rw [dif_neg hn]
  simp only [he, hte, if_pos]

/-- The driver behaviour in which every invocation fails with the transient
"PROTOCOL_ENQUEUE_AFTER_FATAL_ERROR" class, each invocation's outcome tagged
with its invocation index so the attempts are distinguishable. -/
def transientAttempts : Nat → QueryOutcome := fun i =>
  { error := some
      { message :=
          "Error: PROTOCOL_ENQUEUE_AFTER_FATAL_ERROR attempt " ++ toString i
      , sql := none }
  , results := Json.num (Int.ofNat i)
  , fields := Json.num (Int.ofNat (100 + i)) }

/-- Claim C1 counterexample: when every attempt fails transiently, the tuple
handed to the callback is the fourth (last) attempt's outcome, not the first
attempt's as the claim states. -/
theorem query_exhausted_delivers_fourth_counterexample :
    (query transientAttempts "SELECT 1 FROM t" 0 none).2 =
      some (transientAttempts 3) ∧
    (query transientAttempts "SELECT 1 FROM t" 0 none).2 ≠
      some (transientAttempts 0) := by
  have s0 := query_transient_step transientAttempts "SELECT 1 FROM t" 0 none
    (by omega) (by decide)
  have s1 := query_transient_step transientAttempts "SELECT 1 FROM t" 1
    (some (transientAttempts 0)) (by omega) (by decide)
  have s2 := query_transient_step transientAttempts "SELECT 1 FROM t" 2
    (some (transientAttempts 1)) (by omega) (by decide)
  have s3 := query_transient_step transientAttempts "SELECT 1 FROM t" 3
    (some (transientAttempts 2)) (by omega) (by decide)
  have s4 := query_stop transientAttempts "SELECT 1 FROM t" 4
    (some (transientAttempts 3)) (by omega)
  have hval : (query transientAttempts "SELECT 1 FROM t" 0 none).2 =
      some (transientAttempts 3) := by
    rw [s0, s1, s2, s3, s4]
  refine ⟨hval, ?_⟩
  rw [hval]
  intro hcontra
  have h30 := Option.some.inj hcontra
  have hres := congrArg QueryOutcome.results h30
  simp [transientAttempts] at hres

/-- Claim C1 (amended): when every attempt fails with the transient
"PROTOCOL_ENQUEUE_AFTER_FATAL_ERROR" class, `query` retries exactly 3
additional times (driver invocations 0, 1, 2, 3, each re-invocation stashing
the failed outcome), and after exhausting the retries it invokes the callback
with the fourth (last) attempt's error/results/fields tuple, not the first
attempt's. -/
theorem query_exhausts_to_last_attempt (attempts : Nat → QueryOutcome)
    (sql : String)
    (h : ∀ i, i < 4 → transientOutcome (attempts i) = true) :
    (query attempts sql 0 none).1 = [0, 1, 2, 3] ∧
    (query attempts sql 0 none).2 = some (attempts 3) := by
  have s0 := query_transient_step attempts sql 0 none
    (by omega) (h 0 (by omega))
  have s1 := query_transient_step attempts sql 1 (some (attempts 0))
    (by omega) (h 1 (by omega))
  have s2 := query_transient_step attempts sql 2 (some (attempts 1))
    (by omega) (h 2 (by omega))
  have s3 := query_transient_step attempts sql 3 (some (attempts 2))
    (by omega) (h 3 (by omega))
  have s4 := query_stop attempts sql 4 (some (attempts 3)) (by omega)
  rw [s0, s1, s2, s3, s4]
  simp

/-- Claim C1 witness: the distinguishable all-transient driver behaviour
executes attempts 0-3 and delivers attempt 3's tuple. -/
theorem query_exhausts_to_last_attempt_witness :
    (query transientAttempts "SELECT 1 FROM t" 0 none).1 = [0, 1, 2, 3] ∧
    (query transientAttempts "SELECT 1 FROM t" 0 none).2 =
      some (transientAttempts 3) :=
  query_exhausts_to_last_attempt transientAttempts "SELECT 1 FROM t"
    (by decide)

/-- A transport that replies success to every envelope. -/
def nullTransport : Envelope → Option String × Json :=
  fun _ => (none, Json.null)

/-- A transport that echoes back the `data` field of the envelope it was
handed, making the sent envelope observable. -/
def dataProbe : Envelope → Option String × Json :=
  fun env => (none, env.param.data)

/-- Claim C2 counterexample: a falsy payload (here `null`) is not sent as-is:
`toParam` replaces it with the empty object, so the envelope observed on the
wire carries `{}` where the claim requires the original payload. -/
theorem serviceRequest_falsy_payload_counterexample :
    serviceRequestRun dataProbe sampleCtx "definition.manager" Json.null =
      (none, Json.obj []) ∧
    serviceRequestRun dataProbe sampleCtx "definition.manager" Json.null ≠
      (none, Json.null) := by
  refine ⟨rfl, ?_⟩
  intro hcontra
  have hsnd : Json.obj ([] : List (String × Json)) = Json.null :=
    congrArg Prod.snd hcontra
  exact Json.noConfusion hsnd

/-- Claim C2 (amended): for every service key and every truthy payload,
`serviceRequest` sends exactly the envelope `{type: key, param: {jobID,
tenantID, user, data: payload}}` built from the context, with no extra or
missing fields; a falsy payload is replaced by the empty object. -/
theorem serviceRequest_envelope (transport : Envelope → Option String × Json)
    (ctx : ABRequestService) (key : String) (payload : Json)
    (h : truthy payload = true) :
    serviceRequestRun transport ctx key payload =
      transport
        { type := key
        , param :=
          { jobID := ctx.jobID
          , tenantID := ctx._tenantID
          , user := ctx._user
          , data := payload } } := by
  simp [serviceRequestRun, toParam, h]

/-- Claim C2 witness: a concrete truthy payload goes over the transport in
exactly the claimed envelope. -/
theorem serviceRequest_envelope_witness :
    serviceRequestRun nullTransport sampleCtx "definition.manager"
        (Json.num 5) =
      nullTransport
        { type := "definition.manager"
        , param :=
          { jobID := sampleCtx.jobID
          , tenantID := sampleCtx._tenantID
          , user := sampleCtx._user
          , data := Json.num 5 } } :=
  serviceRequest_envelope nullTransport sampleCtx "definition.manager"
    (Json.num 5) (by decide)

end ABUtils

